import Mathlib

/-!
Verification development for the steamboat data-formatting tool.

The Python sources are shallowly embedded: rows of delimited input files
become association lists from column names to string values, YAML
configuration becomes Lean structures, Python dictionaries become
association lists with insert-or-replace semantics, and code that can
raise an exception (missing key, index out of range, unparsable number)
returns `Option`.  Floating-point arithmetic of the source is modelled
with exact rational arithmetic.
-/

namespace Steamboat

/-- Lookup in an association list keyed by strings, mirroring a Python
dictionary read `d[k]` / `d.get(k)`. -/
def lookupKey {α : Type} : List (String × α) → String → Option α
  | [], _ => none
  | (k', v) :: rest, k => if k' = k then some v else lookupKey rest k

/-- `true` when the key is present, mirroring Python `k in d`. -/
def hasKey {α : Type} (d : List (String × α)) (k : String) : Bool :=
  (lookupKey d k).isSome

/-- Insert-or-replace in an association list, mirroring Python dictionary
assignment `d[k] = v` (an existing key keeps its position). -/
def dictInsert {α : Type} : List (String × α) → String → α → List (String × α)
  | [], k, v => [(k, v)]
  | (k', v') :: rest, k, v =>
      if k' = k then (k, v) :: rest else (k', v') :: dictInsert rest k v

/-- Python `str.isdigit` restricted to ASCII: a non-empty string of digits. -/
def pyIsDigit (s : String) : Bool :=
  !s.isEmpty && s.data.all Char.isDigit

/-- Drop the first occurrence of `'.'` from a character list. -/
def dropFirstDot : List Char → List Char
  | [] => []
  | c :: cs => if c = '.' then cs else c :: dropFirstDot cs

/-- Python `s.replace('.', '', 1)`: remove at most one `'.'`. -/
def removeFirstDot (s : String) : String :=
  String.mk (dropFirstDot s.data)

/-- Value of a list of ASCII digit characters read in base 10. -/
def digitsVal (l : List Char) : Nat :=
  l.foldl (fun a c => 10 * a + (c.toNat - 48)) 0

/-- Split a character list at every occurrence of the given character,
keeping empty pieces, like Python `str.split(c)`. -/
def splitOnChar (c : Char) : List Char → List (List Char)
  | [] => [[]]
  | x :: xs =>
    match splitOnChar c xs with
    | [] => [[]]
    | g :: gs => if x = c then [] :: g :: gs else (x :: g) :: gs

/-- Exact rational value of a decimal string made of digits with at most
one `'.'`, the shape accepted before the source calls Python `float`. -/
def parseDecimal (s : String) : ℚ :=
  match splitOnChar '.' s.data with
  | [w] => (digitsVal w : ℚ)
  | [w, f] => (digitsVal w : ℚ) + (digitsVal f : ℚ) / (10 ^ f.length : ℚ)
  | _ => 0

/-- Accumulator-based tokenizer: maximal runs of non-whitespace
characters, in order.  The accumulator holds the current token
reversed. -/
def wsTokensAux : List Char → List Char → List (List Char)
  | [], acc => if acc.isEmpty then [] else [acc.reverse]
  | c :: cs, acc =>
    if c.isWhitespace then
      if acc.isEmpty then wsTokensAux cs [] else acc.reverse :: wsTokensAux cs []
    else wsTokensAux cs (c :: acc)

/-- Python `str.split()` with no argument: split on runs of whitespace,
discarding empty pieces. -/
def pySplitWs (s : String) : List String :=
  (wsTokensAux s.data []).map String.mk

/-- Whether the first list is a prefix of the second, by characters. -/
def isPrefixChars : List Char → List Char → Bool
  | [], _ => true
  | _ :: _, [] => false
  | p :: ps, c :: cs => p = c && isPrefixChars ps cs

/-- Replace every non-overlapping occurrence of `pat` (non-empty for all
uses in the source) by `rep`, scanning left to right; the fuel is an
upper bound on the scan length so the recursion is structural. -/
def replaceCharsFuel (pat rep : List Char) : Nat → List Char → List Char
  | 0, l => l
  | _ + 1, [] => []
  | fuel + 1, c :: cs =>
    if pat.isEmpty then c :: cs
    else if isPrefixChars pat (c :: cs) then
      rep ++ replaceCharsFuel pat rep fuel (List.drop pat.length (c :: cs))
    else c :: replaceCharsFuel pat rep fuel cs

/-- Python `str.replace(pat, rep)` for a non-empty pattern. -/
def pyReplace (s pat rep : String) : String :=
  String.mk (replaceCharsFuel pat.data rep.data s.data.length s.data)

/-- Whether the string ends with the given suffix, by characters. -/
def endsWithChars (s suf : String) : Bool :=
  isPrefixChars suf.data.reverse s.data.reverse

/-- Python `str.strip()` restricted to whitespace. -/
def trimChars (l : List Char) : List Char :=
  ((l.dropWhile Char.isWhitespace).reverse.dropWhile Char.isWhitespace).reverse

/-- Python `sep.join(parts)`. -/
def joinSep (sep : String) : List String → String
  | [] => ""
  | [x] => x
  | x :: xs => x ++ sep ++ joinSep sep xs

/-- Two-digit rendering of a natural number below 100. -/
def pad2 (n : Nat) : String :=
  if n < 10 then "0" ++ toString n else toString n

/-- Floor of a rational as an integer, computed with natural-number
division so that it evaluates by kernel reduction. -/
def ratFloor (q : ℚ) : ℤ :=
  if 0 ≤ q.num then Int.ofNat (q.num.toNat / q.den)
  else - Int.ofNat ((q.num.natAbs + q.den - 1) / q.den)

/-- Decimal rendering of a rational to exactly two places, rounding half
up; models Python `f-string` formatting with `.2f` for the magnitudes the
source produces (the sign of a negative zero is not reproduced). -/
def format2f (q : ℚ) : String :=
  let n : ℤ := ratFloor (q * 100 + 1 / 2)
  let sign := if n < 0 then "-" else ""
  sign ++ toString (n.natAbs / 100) ++ "." ++ pad2 (n.natAbs % 100)

/-- Python `str.lower` restricted to ASCII. -/
def pyLower (s : String) : String :=
  String.mk (s.data.map Char.toLower)

/-! ## NWSS wastewater row transformer (`steamboat/repos/nwss.py`) -/

/-- A value held in a Python dictionary cell: either a string or a float
(modelled as an exact rational). -/
inductive Value where
  | str : String → Value
  | num : ℚ → Value
deriving DecidableEq

/-- A row of a delimited input file: column name to raw string value. -/
abbrev Row := List (String × String)

/-- An output record under construction: field name to value, in
insertion order. -/
abbrev Record := List (String × Value)

/-- The fixed, order-significant NWSS output schema (`NWSS_FIELDS`). -/
def NWSS_FIELDS : List String := [
  "reporting_jurisdiction",
  "site_id",
  "county_names",
  "other_jurisdiction",
  "zipcode",
  "population_served",
  "sample_location",
  "sample_location_specify",
  "institution_type",
  "epaid",
  "wwtp_name",
  "wwtp_jurisdiction",
  "capacity_mgd",
  "sample_type",
  "sample_matrix",
  "pretreatment",
  "concentration_method",
  "extraction_method",
  "rec_eff_target_name",
  "rec_eff_spike_matrix",
  "rec_eff_spike_conc",
  "pasteurized",
  "pcr_target",
  "pcr_gene_target",
  "pcr_gene_target_ref",
  "pcr_type",
  "lod_ref",
  "quant_stan_type",
  "stan_ref",
  "inhibition_method",
  "num_no_target_control",
  "sample_collect_date",
  "sample_collect_time",
  "flow_rate",
  "collection_water_temp",
  "sample_id",
  "lab_id",
  "test_result_date",
  "pcr_target_units",
  "pcr_target_avg_conc",
  "lod_sewage",
  "ntc_amplify",
  "rec_eff_percent",
  "inhibition_detect",
  "inhibition_adjust",
  "major_lab_method",
  "major_lab_method_desc"]

/-- Per-site constants from the `sites` section of the YAML mappings. -/
structure SiteInfo where
  reporting_jurisdiction : Value
  site_id : Value
  county_names : Value
  other_jurisdiction : Value
  zipcode : Value
  population_served : Value
  sample_location : Value
  sample_location_specify : Value
  institution_type : Value
  epaid : Value
  wwtp_name : Value
  wwtp_jurisdiction : Value
  capacity_mgd : Value
  sample_type : Value
  sample_matrix : Value
  pretreatment : Value
  concentration_method : Value
  extraction_method : Value
  rec_eff_target_name : Value
  rec_eff_spike_matrix : Value
deriving DecidableEq

/-- Per-target constants from the `targets` section of the YAML mappings. -/
structure TargetInfo where
  pcr_target : Value
  pcr_gene_target : Value
  pcr_gene_target_ref : Value
  pcr_type : Value
  lod_ref : Value
  quant_stan_type : Value
  stan_ref : Value
  inhibition_method : Value
deriving DecidableEq

/-- The `column_mappings` section of the YAML mappings: canonical field
names to actual input column headers, plus the ordered target list. -/
structure ColumnMappings where
  sample_id : String
  collection_water_temp : String
  flow_rate : String
  sample_collect_date : String
  test_result_date : String
  rec_eff_percent : String
  site : String
  targets : List (String × String)
deriving DecidableEq

/-- The full YAML mappings document consumed by `_process_row`. -/
structure NwssMappings where
  column_mappings : ColumnMappings
  rec_eff_spike_conc : Value
  inhibition_detect : Value
  inhibition_adjust : Value
  lab_id : Value
  lod_sewage : Value
  major_lab_method : Value
  major_lab_method_desc : Value
  ntc_amplify : Value
  pasteurized : Value
  pcr_target_units : Value
  sites : List (String × SiteInfo)
  targets : List (String × TargetInfo)
deriving DecidableEq

/-- Site-identifier normalization applied before the `sites` lookup:
lowercase, spaces replaced by underscores. -/
def normalizeSite (s : String) : String :=
  pyReplace (pyLower s) " " "_"

/-- The `shared_fields` dictionary of `_process_row` once complete: the
eleven constants copied from the mappings, the two unit-derived fields,
the twenty site fields, and `rec_eff_percent`, in insertion order. -/
def mkSharedFields (sample_id : String) (m : NwssMappings) (tempVal flowVal : Value)
    (site : SiteInfo) (recEffRaw : String) : Record := [
  ("sample_id", Value.str sample_id),
  ("rec_eff_spike_conc", m.rec_eff_spike_conc),
  ("inhibition_detect", m.inhibition_detect),
  ("inhibition_adjust", m.inhibition_adjust),
  ("lab_id", m.lab_id),
  ("lod_sewage", m.lod_sewage),
  ("major_lab_method", m.major_lab_method),
  ("major_lab_method_desc", m.major_lab_method_desc),
  ("ntc_amplify", m.ntc_amplify),
  ("pasteurized", m.pasteurized),
  ("pcr_target_units", m.pcr_target_units),
  ("collection_water_temp", tempVal),
  ("flow_rate", flowVal),
  ("reporting_jurisdiction", site.reporting_jurisdiction),
  ("site_id", site.site_id),
  ("county_names", site.county_names),
  ("other_jurisdiction", site.other_jurisdiction),
  ("zipcode", site.zipcode),
  ("population_served", site.population_served),
  ("sample_location", site.sample_location),
  ("sample_location_specify", site.sample_location_specify),
  ("institution_type", site.institution_type),
  ("epaid", site.epaid),
  ("wwtp_name", site.wwtp_name),
  ("wwtp_jurisdiction", site.wwtp_jurisdiction),
  ("capacity_mgd", site.capacity_mgd),
  ("sample_type", site.sample_type),
  ("sample_matrix", site.sample_matrix),
  ("pretreatment", site.pretreatment),
  ("concentration_method", site.concentration_method),
  ("extraction_method", site.extraction_method),
  ("rec_eff_target_name", site.rec_eff_target_name),
  ("rec_eff_spike_matrix", site.rec_eff_spike_matrix),
  ("rec_eff_percent", Value.str (pyReplace recEffRaw "%" ""))]

/-- The per-target record appended to `row_results`: the shared fields
followed by the twelve target-specific entries, in insertion order. -/
def mkTargetRecord (shared : Record) (value : String) (ti : TargetInfo)
    (date time trd : String) : Record :=
  shared ++ [
    ("pcr_target_avg_conc", Value.str value),
    ("pcr_target", ti.pcr_target),
    ("pcr_gene_target", ti.pcr_gene_target),
    ("pcr_gene_target_ref", ti.pcr_gene_target_ref),
    ("pcr_type", ti.pcr_type),
    ("lod_ref", ti.lod_ref),
    ("quant_stan_type", ti.quant_stan_type),
    ("stan_ref", ti.stan_ref),
    ("inhibition_method", ti.inhibition_method),
    ("sample_collect_date", Value.str date),
    ("sample_collect_time", Value.str time),
    ("test_result_date", Value.str trd)]

/-- The target fan-out loop of `_process_row`.  For each declared target:
skip it when its column is absent from the row, when the value in that
column is the empty string, or when the target is absent from the target
metadata; otherwise emit one record.  `none` models a raised exception
(missing timestamp or result-date column, or a timestamp that does not
split into at least two whitespace tokens). -/
def processTargets (row : Row) (m : NwssMappings) (shared : Record) :
    List (String × String) → Option (List Record)
  | [] => some []
  | (target, nwssCol) :: rest =>
    match lookupKey row nwssCol with
    | none => processTargets row m shared rest
    | some value =>
      if value = "" then processTargets row m shared rest
      else
        match lookupKey m.targets target with
        | none => processTargets row m shared rest
        | some ti =>
          match lookupKey row m.column_mappings.sample_collect_date with
          | none => none
          | some collectRaw =>
            match (pySplitWs collectRaw).get? 0, (pySplitWs collectRaw).get? 1 with
            | some date, some time =>
              match lookupKey row m.column_mappings.test_result_date with
              | none => none
              | some trd =>
                match processTargets row m shared rest with
                | none => none
                | some recs => some (mkTargetRecord shared value ti date time trd :: recs)
            | _, _ => none

/-- The Fahrenheit-to-Celsius branch of `_process_row`: convert and format
when the raw value, after removing at most one `'.'`, is all digits;
otherwise leave the field empty. -/
def tempValue (raw : String) : Value :=
  if pyIsDigit (removeFirstDot raw) then
    Value.str (format2f ((parseDecimal raw - 32) * 5 / 9))
  else
    Value.str ""

/-- The flow-rate branch of `_process_row`: keep the parsed float when
the raw value passes the same digit check; otherwise leave it empty. -/
def flowValue (raw : String) : Value :=
  if pyIsDigit (removeFirstDot raw) then
    Value.num (parseDecimal raw)
  else
    Value.str ""

/-- `_process_row`: transform one input row into the list of output
records, one per target that clears all checks.  `none` models a raised
exception (a required column missing from the row, or a malformed
timestamp reached while emitting a record); an unrecognized site returns
`some []` — the row is dropped with no output records. -/
def processRow (row : Row) (m : NwssMappings) : Option (List Record) :=
  match lookupKey row m.column_mappings.sample_id with
  | none => none
  | some sample_id =>
    match lookupKey row m.column_mappings.collection_water_temp with
    | none => none
    | some tempRaw =>
      match lookupKey row m.column_mappings.flow_rate with
      | none => none
      | some flowRaw =>
        match lookupKey row m.column_mappings.site with
        | none => none
        | some siteRaw =>
          match lookupKey m.sites (normalizeSite siteRaw) with
          | none => some []
          | some site =>
            match lookupKey row m.column_mappings.rec_eff_percent with
            | none => none
            | some recEffRaw =>
              processTargets row m
                (mkSharedFields sample_id m (tempValue tempRaw) (flowValue flowRaw)
                  site recEffRaw)
                m.column_mappings.targets

/-! ### Concrete NWSS inputs for witnesses, shaped after the docstring
example of `_process_row` -/

/-- A site-constants entry with distinctive values. -/
def demoSite : SiteInfo where
  reporting_jurisdiction := Value.str "WA"
  site_id := Value.str "42"
  county_names := Value.str "King"
  other_jurisdiction := Value.str ""
  zipcode := Value.str "98000"
  population_served := Value.str "12000"
  sample_location := Value.str "wwtp"
  sample_location_specify := Value.str ""
  institution_type := Value.str "not institution specific"
  epaid := Value.str "WA0000000"
  wwtp_name := Value.str "City WWTP"
  wwtp_jurisdiction := Value.str "WA"
  capacity_mgd := Value.num (4 / 10)
  sample_type := Value.str "24-hr flow-weighted composite"
  sample_matrix := Value.str "raw wastewater"
  pretreatment := Value.str "no"
  concentration_method := Value.str "none"
  extraction_method := Value.str "kit"
  rec_eff_target_name := Value.str "bcov vaccine"
  rec_eff_spike_matrix := Value.str "raw sample"

/-- Target-constants entry for the SARS-CoV-2 assay. -/
def demoTargetSc2 : TargetInfo where
  pcr_target := Value.str "sars-cov-2"
  pcr_gene_target := Value.str "n1"
  pcr_gene_target_ref := Value.str "ref-a"
  pcr_type := Value.str "ddpcr"
  lod_ref := Value.str "lod-a"
  quant_stan_type := Value.str "dna"
  stan_ref := Value.str "stan-a"
  inhibition_method := Value.str "none"

/-- Target-constants entry for the influenza assays. -/
def demoTargetFlu : TargetInfo where
  pcr_target := Value.str "influenza"
  pcr_gene_target := Value.str "m"
  pcr_gene_target_ref := Value.str "ref-b"
  pcr_type := Value.str "ddpcr"
  lod_ref := Value.str "lod-b"
  quant_stan_type := Value.str "rna"
  stan_ref := Value.str "stan-b"
  inhibition_method := Value.str "dilution"

/-- A YAML mappings document with four declared targets. -/
def demoMappings : NwssMappings where
  column_mappings :=
    { sample_id := "WPHL ID#"
      collection_water_temp := "WastewaterTempF"
      flow_rate := "DailyTotalGallons"
      sample_collect_date := "SampleCollected"
      test_result_date := "SampleProcessed"
      rec_eff_percent := "Avg recovery eff"
      site := "Site"
      targets := [
        ("sars_cov_2", "Avg est SC2 conc pre recovery cntrl"),
        ("influenza_a", "Avg est FluA conc pre recov cntrl"),
        ("influenza_b", "Avg est FluB conc pre recov cntrl"),
        ("mev", "Avg est MV conc pre recov cntrl")] }
  rec_eff_spike_conc := Value.num 0
  inhibition_detect := Value.str "not tested"
  inhibition_adjust := Value.str ""
  lab_id := Value.str "lab-1"
  lod_sewage := Value.str "0000"
  major_lab_method := Value.str "0"
  major_lab_method_desc := Value.str ""
  ntc_amplify := Value.str "no"
  pasteurized := Value.str "no"
  pcr_target_units := Value.str "copies/l wastewater"
  sites := [("city_name", demoSite)]
  targets := [
    ("sars_cov_2", demoTargetSc2),
    ("influenza_a", demoTargetFlu),
    ("influenza_b", demoTargetFlu),
    ("mev", demoTargetSc2)]

/-- An input row with three valid targets and one empty-valued target
column. -/
def demoRow : Row := [
  ("WPHL ID#", "230000001"),
  ("Site", "City Name"),
  ("WastewaterTempF", "98.6"),
  ("DailyTotalGallons", "3.941"),
  ("SampleCollected", "8/8/2023 7:00"),
  ("SampleProcessed", "8/9/2023"),
  ("Avg recovery eff", "36.70%"),
  ("Avg est SC2 conc pre recovery cntrl", "4119.27"),
  ("Avg est FluA conc pre recov cntrl", "800"),
  ("Avg est FluB conc pre recov cntrl", "0"),
  ("Avg est MV conc pre recov cntrl", "")]

/-- The three per-target checks of the fan-out loop, as a predicate on a
`(target, column)` pair: the column is present in the row, its value is
non-empty, and the target has an entry in the target metadata. -/
def targetPasses (row : Row) (m : NwssMappings) (p : String × String) : Bool :=
  match lookupKey row p.2 with
  | none => false
  | some v => if v = "" then false else (lookupKey m.targets p.1).isSome

/-- The 46 field names assigned in every emitted NWSS record, in
insertion order: the 34 shared fields followed by the 12 per-target
fields. -/
def nwssRecordFields : List String := [
  "sample_id",
  "rec_eff_spike_conc",
  "inhibition_detect",
  "inhibition_adjust",
  "lab_id",
  "lod_sewage",
  "major_lab_method",
  "major_lab_method_desc",
  "ntc_amplify",
  "pasteurized",
  "pcr_target_units",
  "collection_water_temp",
  "flow_rate",
  "reporting_jurisdiction",
  "site_id",
  "county_names",
  "other_jurisdiction",
  "zipcode",
  "population_served",
  "sample_location",
  "sample_location_specify",
  "institution_type",
  "epaid",
  "wwtp_name",
  "wwtp_jurisdiction",
  "capacity_mgd",
  "sample_type",
  "sample_matrix",
  "pretreatment",
  "concentration_method",
  "extraction_method",
  "rec_eff_target_name",
  "rec_eff_spike_matrix",
  "rec_eff_percent",
  "pcr_target_avg_conc",
  "pcr_target",
  "pcr_gene_target",
  "pcr_gene_target_ref",
  "pcr_type",
  "lod_ref",
  "quant_stan_type",
  "stan_ref",
  "inhibition_method",
  "sample_collect_date",
  "sample_collect_time",
  "test_result_date"]

/-- Reading of the specification's timestamp split for comparison with
the code: the date token is everything before the first whitespace
character of the raw value. -/
def firstBoundaryDate (s : String) : String :=
  String.mk (s.data.takeWhile (fun c => !c.isWhitespace))

/-- Reading of the specification's timestamp split for comparison with
the code: the time token is everything after the first whitespace
boundary, that is, after the whitespace run that follows the date
token. -/
def firstBoundaryTime (s : String) : String :=
  String.mk ((s.data.dropWhile (fun c => !c.isWhitespace)).dropWhile Char.isWhitespace)

/-- Reading of the specification's recovery-efficiency handling for
comparison with the code: strip a single trailing percent sign. -/
def stripTrailingPercent (s : String) : String :=
  match s.data.reverse with
  | '%' :: rest => String.mk rest.reverse
  | _ => s

/-- An input row whose timestamp has three whitespace-separated tokens
and whose single declared-target column present is the SARS-CoV-2 one. -/
def demoRowAm : Row := [
  ("WPHL ID#", "230000002"),
  ("Site", "City Name"),
  ("WastewaterTempF", "66"),
  ("DailyTotalGallons", "3.941"),
  ("SampleCollected", "8/8/2023 7:00 AM"),
  ("SampleProcessed", "8/9/2023"),
  ("Avg recovery eff", "36.70%"),
  ("Avg est SC2 conc pre recovery cntrl", "4119.27")]

/-- An input row whose recovery-efficiency value has a percent sign in
the middle as well as at the end. -/
def demoRowPct : Row := [
  ("WPHL ID#", "230000003"),
  ("Site", "City Name"),
  ("WastewaterTempF", "66"),
  ("DailyTotalGallons", "3.941"),
  ("SampleCollected", "8/8/2023 7:00"),
  ("SampleProcessed", "8/9/2023"),
  ("Avg recovery eff", "4%3%"),
  ("Avg est SC2 conc pre recovery cntrl", "4119.27")]

/-- An input row whose site is not in the site table. -/
def demoRowBadSite : Row := [
  ("WPHL ID#", "230000004"),
  ("Site", "Closed Plant"),
  ("WastewaterTempF", "66"),
  ("DailyTotalGallons", "3.941"),
  ("SampleCollected", "8/8/2023 7:00"),
  ("SampleProcessed", "8/9/2023"),
  ("Avg recovery eff", "36.70%"),
  ("Avg est SC2 conc pre recovery cntrl", "4119.27")]

/-! ## GISAID formatter and batch filter (`steamboat/repos/gisaid.py`,
`steamboat/cli/repos/gisaid/batch.py`) -/

/-- The `GISAID_TYPE` constant. -/
def GISAID_TYPE : String := "betacoronavirus"

/-- The fixed, order-significant GISAID metadata schema (`GISAID_FIELDS`). -/
def GISAID_FIELDS : List String := [
  "submitter",
  "fn",
  "covv_virus_name",
  "covv_type",
  "covv_passage",
  "covv_collection_date",
  "covv_location",
  "covv_add_location",
  "covv_host",
  "covv_add_host_info",
  "covv_sampling_strategy",
  "covv_gender",
  "covv_patient_age",
  "covv_patient_status",
  "covv_specimen",
  "covv_outbreak",
  "covv_last_vaccinated",
  "covv_treatment",
  "covv_seq_technology",
  "covv_assembly_method",
  "covv_coverage",
  "covv_orig_lab",
  "covv_orig_lab_addr",
  "covv_provider_sample_id",
  "covv_subm_lab",
  "covv_subm_lab_addr",
  "covv_subm_sample_id",
  "covv_consortium",
  "covv_authors",
  "covv_comment",
  "comment_type"]

/-- The `SEQUENCER` code-to-display-name table. -/
def SEQUENCER : List (String × String) := [
  ("clearlabs", "Oxford Nanopore Technologies (via ClearLabs)"),
  ("iseq", "Illumina iSeq"),
  ("hiseq", "Illumina HiSeq"),
  ("miseq", "Illumina MiSeq"),
  ("nextseq", "Illumina NextSeq"),
  ("ont", "Oxford Nanopore Technologies")]

/-- Run-wide constants read from the GISAID YAML configuration.  The
field `SUBMISSION_ID_PFX` models the SUBMISSION_ID_PREFIX constant of the
source; `GISAID_SAMPLING_STRATEGY` is optional in the configuration. -/
structure GisaidConstants where
  SUBMITTER : String
  GISAID_PASSAGE : String
  GISAID_HOST : String
  GISAID_PATIENT_STATUS : String
  ORIGINATING_LAB : String
  ORIGINATING_LAB_ADDRESS : String
  SUBMITTING_LAB : String
  SUBMITTING_LAB_ADDRESS : String
  COUNTRY : String
  CONTINENT : String
  STATE : String
  SUBMISSION_ID_PFX : String
  GISAID_SAMPLING_STRATEGY : Option String
  AUTHORS : List String
deriving DecidableEq

/-- Python `int(s)` on a decimal string: optional sign after stripping
surrounding whitespace, then at least one digit. -/
def pyInt (s : String) : Option ℤ :=
  let core : List Char → Option ℤ := fun ds =>
    if !ds.isEmpty && ds.all Char.isDigit then some (Int.ofNat (digitsVal ds)) else none
  match trimChars s.data with
  | '+' :: ds => core ds
  | '-' :: ds => (core ds).map (fun z => -z)
  | ds => core ds

/-- Python `float(s)` on the decimal subset of its grammar: optional sign
after stripping surrounding whitespace, then digits with at most one dot
and at least one digit (no exponent, infinity or nan, which the source's
inputs do not use). -/
def pyFloat (s : String) : Option ℚ :=
  let core : List Char → Option ℚ := fun ds =>
    if ds.any Char.isDigit && ds.all (fun c => c.isDigit || c = '.') &&
        decide (List.count '.' ds ≤ 1) then
      some (parseDecimal (String.mk ds))
    else none
  match trimChars s.data with
  | '+' :: ds => core ds
  | '-' :: ds => (core ds).map (fun q => -q)
  | ds => core ds

/-- Smallest exponent `k` with `10 ^ k` divisible by `d`, searched with
fuel; `none` when the denominator is not a divisor of a power of ten. -/
def decExpAux (d : Nat) : Nat → Nat → Option Nat
  | 0, _ => none
  | fuel + 1, k => if (10 ^ k) % d = 0 then some k else decExpAux d fuel (k + 1)

/-- Decimal digits of a natural number zero-padded on the left to `k`
characters. -/
def natDigitsPadded (n k : Nat) : List Char :=
  let ds := Nat.toDigits 10 n
  List.replicate (k - ds.length) '0' ++ ds

/-- Drop trailing zeros but keep at least one digit. -/
def dropTrailingZerosKeepOne (ds : List Char) : List Char :=
  match (ds.reverse.dropWhile (fun c => c = '0')) with
  | [] => ['0']
  | l => l.reverse

/-- Python `str` of a float whose value is an exact decimal: integers are
rendered with a trailing dot-zero, fractional parts with trailing zeros
removed; used only inside report message strings. -/
def pyFloatStr (q : ℚ) : String :=
  let sign := if q.num < 0 then "-" else ""
  let n := q.num.natAbs
  let d := q.den
  match decExpAux d 30 0 with
  | some 0 => sign ++ toString n ++ ".0"
  | some k =>
    let scaled := n * 10 ^ k / d
    let whole := scaled / 10 ^ k
    let frac := scaled % 10 ^ k
    sign ++ toString whole ++ "." ++
      String.mk (dropTrailingZerosKeepOne (natDigitsPadded frac k))
  | none => sign ++ toString n ++ "/" ++ toString d

/-- Python `str` of an integer. -/
def intStr (z : ℤ) : String :=
  if z < 0 then "-" ++ toString z.natAbs else toString z.natAbs

/-- The low-coverage exclusion message of `gisaid_batch`. -/
def lowCoverageMessage (sample_id covS : String) (minCov : ℚ) : String :=
  sample_id ++ " - Low percent coverage (" ++ covS ++ "%). Expected >= " ++
    pyFloatStr minCov ++ "%"

/-- The too-many-Ns exclusion message of `gisaid_batch`. -/
def tooManyNsMessage (sample_id nsS : String) (maxNs : ℤ) : String :=
  sample_id ++ " - Too many Ns (" ++ nsS ++ "). Expected <= " ++ intStr maxNs

/-- The exclusion reasons collected for one sample: both threshold checks
always run, in order, appending one message per violated check. -/
def qcReasons (sample_id covS nsS : String) (cov : ℚ) (ns : ℤ)
    (minCov : ℚ) (maxNs : ℤ) : List String :=
  (if cov < minCov then [lowCoverageMessage sample_id covS minCov] else []) ++
  (if maxNs < ns then [tooManyNsMessage sample_id nsS maxNs] else [])

/-- Result of the per-sample loop body of `gisaid_batch`. -/
inductive Outcome where
  | skipped : Outcome
  | excludedRow : String → String → Outcome
  | accepted : String → List (String × String) → String → Outcome
deriving DecidableEq

/-- `gisaid_formatter`: build the ordered GISAID metadata record for one
accepted sample.  `none` models a raised exception: a required metadata
column missing, an age that does not parse as an integer, an empty
authors list, or a sequencer code absent from the table. -/
def gisaid_formatter (metadata : Row) (fasta : String) (sequencer : String)
    (constants : GisaidConstants) : Option (List (String × String)) :=
  match lookupKey metadata "sample_id" with
  | none => none
  | some sample_id =>
  match lookupKey metadata "collection_date" with
  | none => none
  | some cdate =>
  match lookupKey metadata "sex" with
  | none => none
  | some sex =>
  match lookupKey metadata "age" with
  | none => none
  | some ageS =>
  match pyInt ageS with
  | none => none
  | some age =>
  match constants.AUTHORS.getLast? with
  | none => none
  | some lastAuthor =>
  match lookupKey SEQUENCER sequencer with
  | none => none
  | some seqTech =>
    let authors := joinSep ", " constants.AUTHORS.dropLast ++ ", and " ++ lastAuthor
    let year := String.mk ((splitOnChar '-' cdate.data).headD [])
    let virus_name := "hCoV-19/" ++ constants.COUNTRY ++ "/" ++
      constants.SUBMISSION_ID_PFX ++ sample_id ++ "/" ++ year
    let location := constants.CONTINENT ++ " / " ++ constants.COUNTRY ++ " / " ++
      constants.STATE
    some [
      ("submitter", constants.SUBMITTER),
      ("fn", fasta),
      ("covv_virus_name", virus_name),
      ("covv_type", GISAID_TYPE),
      ("covv_passage", constants.GISAID_PASSAGE),
      ("covv_collection_date", cdate),
      ("covv_location", location),
      ("covv_add_location", ""),
      ("covv_host", constants.GISAID_HOST),
      ("covv_add_host_info", ""),
      ("covv_sampling_strategy", constants.GISAID_SAMPLING_STRATEGY.getD ""),
      ("covv_gender", pyLower sex),
      ("covv_patient_age", if 90 ≤ age then ">90" else ageS),
      ("covv_patient_status", constants.GISAID_PATIENT_STATUS),
      ("covv_specimen", (lookupKey metadata "source").getD ""),
      ("covv_outbreak", ""),
      ("covv_last_vaccinated", ""),
      ("covv_treatment", ""),
      ("covv_seq_technology", seqTech),
      ("covv_assembly_method", ""),
      ("covv_coverage", ""),
      ("covv_orig_lab", constants.ORIGINATING_LAB),
      ("covv_orig_lab_addr", constants.ORIGINATING_LAB_ADDRESS),
      ("covv_provider_sample_id", ""),
      ("covv_subm_lab", constants.SUBMITTING_LAB),
      ("covv_subm_lab_addr", constants.SUBMITTING_LAB_ADDRESS),
      ("covv_subm_sample_id", ""),
      ("covv_consortium", ""),
      ("covv_authors", authors),
      ("covv_comment", ""),
      ("comment_type", "")]

/-- `parse_consensus_assemblies`, with the directory modelled as a list
of file names paired with the sequences each file holds: files matching
`*.extension` are scanned in order, a file with exactly one sequence is
stored under its name with the extension occurrence removed, and empty or
multi-sequence files are only logged. -/
def parseAssembliesAux (extension : String) :
    List (String × List String) → List (String × String) → List (String × String)
  | [], seqs => seqs
  | (name, fasta) :: rest, seqs =>
    if endsWithChars name ("." ++ extension) then
      if fasta.length = 1 then
        parseAssembliesAux extension rest
          (dictInsert seqs (pyReplace name ("." ++ extension) "") (fasta.headD ""))
      else parseAssembliesAux extension rest seqs
    else parseAssembliesAux extension rest seqs

/-- The assembly mapping built by scanning a directory of FASTA files. -/
def parse_consensus_assemblies (files : List (String × List String))
    (extension : String) : List (String × String) :=
  parseAssembliesAux extension files []

/-- The per-sample loop body of `gisaid_batch`: prefix the metadata
sample id (the configured prefix is the empty string when absent, and
prepending the empty string is the identity), look the prefixed id up in
the results and assembly mappings — skipping the sample when either
lookup fails — then apply both threshold checks, and either record the
exclusion under the prefixed id with the reasons joined by a semicolon,
or format the sample and store it under its unprefixed id.  `none` models
a raised exception. -/
def processSample (results : List (String × Row)) (assemblies : List (String × String))
    (minCov : ℚ) (maxNs : ℤ) (samplePfx : String) (gisaidFastaName : String)
    (sequencer : String) (constants : GisaidConstants) (sample : Row) :
    Option Outcome :=
  match lookupKey sample "sample_id" with
  | none => none
  | some sid0 =>
    let sample_id := samplePfx ++ sid0
    match lookupKey results sample_id with
    | none => some Outcome.skipped
    | some res =>
      match lookupKey assemblies sample_id with
      | none => some Outcome.skipped
      | some seq =>
        match lookupKey res "percent_coverage" with
        | none => none
        | some covS =>
          match pyFloat covS with
          | none => none
          | some cov =>
            match lookupKey res "total_ns" with
            | none => none
            | some nsS =>
              match pyInt nsS with
              | none => none
              | some ns =>
                let reasons := qcReasons sample_id covS nsS cov ns minCov maxNs
                if reasons.isEmpty then
                  match gisaid_formatter sample gisaidFastaName sequencer constants with
                  | none => none
                  | some record => some (Outcome.accepted sid0 record seq)
                else
                  some (Outcome.excludedRow sample_id (joinSep ";" reasons))

/-- One step of the `gisaid_batch` accumulation over `(final_data,
excluded)`: a skipped sample leaves both unchanged, an excluded sample is
appended to the exclusion list, an accepted sample is stored in the final
data under its key. -/
def batchStep
    (acc : List (String × (List (String × String) × String)) × List (String × String))
    (out : Outcome) :
    List (String × (List (String × String) × String)) × List (String × String) :=
  match out with
  | Outcome.skipped => acc
  | Outcome.excludedRow sample_id reason => (acc.1, acc.2 ++ [(sample_id, reason)])
  | Outcome.accepted key record seq => (dictInsert acc.1 key (record, seq), acc.2)

/-- The record stored for an accepted outcome, when there is one. -/
def outcomeRecord : Option Outcome → Option (List (String × String))
  | some (Outcome.accepted _ record _) => some record
  | _ => none

/-! ### Concrete GISAID inputs for witnesses -/

/-- Run-wide constants with distinctive values. -/
def demoConstants : GisaidConstants where
  SUBMITTER := "submitter1"
  GISAID_PASSAGE := "Original"
  GISAID_HOST := "Human"
  GISAID_PATIENT_STATUS := "unknown"
  ORIGINATING_LAB := "Lab A"
  ORIGINATING_LAB_ADDRESS := "1 A St"
  SUBMITTING_LAB := "Lab B"
  SUBMITTING_LAB_ADDRESS := "2 B St"
  COUNTRY := "USA"
  CONTINENT := "North America"
  STATE := "Washington"
  SUBMISSION_ID_PFX := "WA-PHL-"
  GISAID_SAMPLING_STRATEGY := none
  AUTHORS := ["Ada One", "Ben Two", "Cal Three"]

/-- A metadata row for sample S1. -/
def demoMeta : Row := [
  ("sample_id", "S1"),
  ("collection_date", "2023-08-08"),
  ("sex", "Female"),
  ("age", "45"),
  ("source", "np swab")]

/-- A metadata row for sample S2, whose assembly file has two sequences. -/
def demoMetaS2 : Row := [
  ("sample_id", "S2"),
  ("collection_date", "2023-08-09"),
  ("sex", "Male"),
  ("age", "91")]

/-- The results row for sample S1: passing metrics. -/
def demoResRow : Row := [
  ("sample_id", "S1"),
  ("percent_coverage", "95.5"),
  ("total_ns", "120")]

/-- A results mapping holding S1 and S2. -/
def demoResults : List (String × Row) := [
  ("S1", demoResRow),
  ("S2", [("sample_id", "S2"), ("percent_coverage", "99.0"), ("total_ns", "3")])]

/-- A scanned assembly directory: S1 has one sequence, S2 has two, S3 is
empty, and one file does not match the extension. -/
def demoFiles : List (String × List String) := [
  ("S1.consensus.fa", ["ACGT"]),
  ("S2.consensus.fa", ["ACGT", "TTTT"]),
  ("S3.consensus.fa", []),
  ("notes.txt", ["ignored"])]

/-- The assembly mapping for the witness runs. -/
def demoAssemblies : List (String × String) := [("S1", "ACGT")]

/-- A results mapping holding the same sample under its plain and its
prefixed id, for the two-run comparison. -/
def demoResultsP : List (String × Row) := [
  ("S1", demoResRow),
  ("WA-S1", [("sample_id", "WA-S1"), ("percent_coverage", "88.0"), ("total_ns", "900")])]

/-- An assembly mapping holding the same sample under its plain and its
prefixed id. -/
def demoAssembliesP : List (String × String) := [("S1", "ACGT"), ("WA-S1", "ACGG")]

theorem processTargets_length {row : Row} {m : NwssMappings} {shared : Record} :
    ∀ (ts : List (String × String)) (recs : List Record),
      processTargets row m shared ts = some recs →
      recs.length = (ts.filter (targetPasses row m)).length := by
  intro ts
  induction ts with
  | nil =>
    intro recs h
    simp only [processTargets, Option.some.injEq] at h
    simp [← h]
  | cons p rest ih =>
    intro recs h
    obtain ⟨t, col⟩ := p
    simp only [processTargets] at h
    rw [List.filter_cons]
    cases hcol : lookupKey row col with
    | none =>
      rw [hcol] at h
      dsimp only at h
      simp only [targetPasses, hcol]
      exact ih recs h
    | some v =>
      rw [hcol] at h
      dsimp only at h
      by_cases hv : v = ""
      · rw [if_pos hv] at h
        simp only [targetPasses, hcol, hv, if_pos rfl]
        exact ih recs h
      · rw [if_neg hv] at h
        cases hti : lookupKey m.targets t with
        | none =>
          rw [hti] at h
          dsimp only at h
          simp only [targetPasses, hcol, if_neg hv, hti, Option.isSome_none]
          exact ih recs h
        | some ti =>
          rw [hti] at h
          dsimp only at h
          cases hcv : lookupKey row m.column_mappings.sample_collect_date with
          | none => rw [hcv] at h; simp at h
          | some cv =>
            rw [hcv] at h
            dsimp only at h
            cases hd : (pySplitWs cv).get? 0 with
            | none => rw [hd] at h; simp at h
            | some date =>
              rw [hd] at h
              cases ht : (pySplitWs cv).get? 1 with
              | none => rw [ht] at h; simp at h
              | some time =>
                rw [ht] at h
                dsimp only at h
                cases htrd : lookupKey row m.column_mappings.test_result_date with
                | none => rw [htrd] at h; simp at h
                | some trd =>
                  rw [htrd] at h
                  dsimp only at h
                  cases hrest : processTargets row m shared rest with
                  | none => rw [hrest] at h; simp at h
                  | some recs' =>
                    rw [hrest] at h
                    dsimp only at h
                    simp only [Option.some.injEq] at h
                    subst h
                    simp only [targetPasses, hcol, if_neg hv, hti, Option.isSome_some,
                      if_pos rfl, List.length_cons]
                    rw [ih recs' hrest]
                    simp

theorem processTargets_mem {row : Row} {m : NwssMappings} {shared : Record} :
    ∀ (ts : List (String × String)) (recs : List Record),
      processTargets row m shared ts = some recs →
      ∀ rec ∈ recs, ∃ target col value ti cv date time trd,
        (target, col) ∈ ts ∧
        lookupKey row col = some value ∧
        value ≠ "" ∧
        lookupKey m.targets target = some ti ∧
        lookupKey row m.column_mappings.sample_collect_date = some cv ∧
        (pySplitWs cv).get? 0 = some date ∧
        (pySplitWs cv).get? 1 = some time ∧
        lookupKey row m.column_mappings.test_result_date = some trd ∧
        rec = mkTargetRecord shared value ti date time trd := by
  intro ts
  induction ts with
  | nil =>
    intro recs h rec hmem
    simp only [processTargets, Option.some.injEq] at h
    rw [← h] at hmem
    exact absurd hmem (List.not_mem_nil rec)
  | cons p rest ih =>
    intro recs h rec hmem
    obtain ⟨t, col⟩ := p
    simp only [processTargets] at h
    cases hcol : lookupKey row col with
    | none =>
      rw [hcol] at h
      dsimp only at h
      obtain ⟨tg, c, value, ti, cv, d, tm, trd, hm, rest'⟩ := ih recs h rec hmem
      exact ⟨tg, c, value, ti, cv, d, tm, trd, List.mem_cons_of_mem _ hm, rest'⟩
    | some v =>
      rw [hcol] at h
      dsimp only at h
      by_cases hv : v = ""
      · rw [if_pos hv] at h
        obtain ⟨tg, c, value, ti, cv, d, tm, trd, hm, rest'⟩ := ih recs h rec hmem
        exact ⟨tg, c, value, ti, cv, d, tm, trd, List.mem_cons_of_mem _ hm, rest'⟩
      · rw [if_neg hv] at h
        cases hti : lookupKey m.targets t with
        | none =>
          rw [hti] at h
          dsimp only at h
          obtain ⟨tg, c, value, ti, cv, d, tm, trd, hm, rest'⟩ := ih recs h rec hmem
          exact ⟨tg, c, value, ti, cv, d, tm, trd, List.mem_cons_of_mem _ hm, rest'⟩
        | some ti =>
          rw [hti] at h
          dsimp only at h
          cases hcv : lookupKey row m.column_mappings.sample_collect_date with
          | none => rw [hcv] at h; simp at h
          | some cv =>
            rw [hcv] at h
            dsimp only at h
            cases hd : (pySplitWs cv).get? 0 with
            | none => rw [hd] at h; simp at h
            | some date =>
              rw [hd] at h
              cases htm : (pySplitWs cv).get? 1 with
              | none => rw [htm] at h; simp at h
              | some time =>
                rw [htm] at h
                dsimp only at h
                cases htrd : lookupKey row m.column_mappings.test_result_date with
                | none => rw [htrd] at h; simp at h
                | some trd =>
                  rw [htrd] at h
                  dsimp only at h
                  cases hrest : processTargets row m shared rest with
                  | none => rw [hrest] at h; simp at h
                  | some recs' =>
                    rw [hrest] at h
                    dsimp only at h
                    simp only [Option.some.injEq] at h
                    rw [← h] at hmem
                    rcases List.mem_cons.mp hmem with heq | htail
                    · exact ⟨t, col, v, ti, cv, date, time, trd, List.mem_cons_self _ _,
                        hcol, hv, hti, rfl, hd, htm, rfl, heq⟩
                    · obtain ⟨tg, c, v', ti', cv', d', t', trd', hm, hc, hv', hti',
                        h1, h2, h3, h4, h5⟩ := ih recs' hrest rec htail
                      rw [hcv] at h1
                      rw [htrd] at h4
                      cases h1
                      cases h4
                      exact ⟨tg, c, v', ti', cv, d', t', trd, List.mem_cons_of_mem _ hm,
                        hc, hv', hti', rfl, h2, h3, rfl, h5⟩

theorem processRow_inv {row : Row} {m : NwssMappings} {recs : List Record}
    (h : processRow row m = some recs) :
    ∃ sid tempRaw flowRaw siteRaw,
      lookupKey row m.column_mappings.sample_id = some sid ∧
      lookupKey row m.column_mappings.collection_water_temp = some tempRaw ∧
      lookupKey row m.column_mappings.flow_rate = some flowRaw ∧
      lookupKey row m.column_mappings.site = some siteRaw ∧
      ((lookupKey m.sites (normalizeSite siteRaw) = none ∧ recs = []) ∨
       (∃ site recEffRaw, lookupKey m.sites (normalizeSite siteRaw) = some site ∧
        lookupKey row m.column_mappings.rec_eff_percent = some recEffRaw ∧
        processTargets row m
          (mkSharedFields sid m (tempValue tempRaw) (flowValue flowRaw) site recEffRaw)
          m.column_mappings.targets = some recs)) := by
  unfold processRow at h
  cases hsid : lookupKey row m.column_mappings.sample_id with
  | none => rw [hsid] at h; simp at h
  | some sid =>
    rw [hsid] at h
    dsimp only at h
    cases htemp : lookupKey row m.column_mappings.collection_water_temp with
    | none => rw [htemp] at h; simp at h
    | some tempRaw =>
      rw [htemp] at h
      dsimp only at h
      cases hflow : lookupKey row m.column_mappings.flow_rate with
      | none => rw [hflow] at h; simp at h
      | some flowRaw =>
        rw [hflow] at h
        dsimp only at h
        cases hsr : lookupKey row m.column_mappings.site with
        | none => rw [hsr] at h; simp at h
        | some siteRaw =>
          rw [hsr] at h
          dsimp only at h
          cases hsite : lookupKey m.sites (normalizeSite siteRaw) with
          | none =>
            rw [hsite] at h
            dsimp only at h
            simp only [Option.some.injEq] at h
            exact ⟨sid, tempRaw, flowRaw, siteRaw, rfl, rfl, rfl, rfl,
              Or.inl ⟨hsite, h.symm⟩⟩
          | some site =>
            rw [hsite] at h
            dsimp only at h
            cases hre : lookupKey row m.column_mappings.rec_eff_percent with
            | none => rw [hre] at h; simp at h
            | some recEffRaw =>
              rw [hre] at h
              dsimp only at h
              exact ⟨sid, tempRaw, flowRaw, siteRaw, rfl, rfl, rfl, rfl,
                Or.inr ⟨site, recEffRaw, hsite, rfl, h⟩⟩

/-- C2: for every wastewater input row whose site is recognized, the
transformer emits exactly one output record per declared target passing
all three independent checks (column present in the row, non-empty value,
target present in the target metadata), and every emitted record carries
the non-empty value of a passing target, so a failed check skips only
that target and a row yields between zero and N records. -/
theorem nwss_target_fan_out
    (row : Row) (m : NwssMappings) (recs : List Record)
    (siteRaw : String) (site : SiteInfo)
    (hsr : lookupKey row m.column_mappings.site = some siteRaw)
    (hsite : lookupKey m.sites (normalizeSite siteRaw) = some site)
    (hrun : processRow row m = some recs) :
    recs.length = (m.column_mappings.targets.filter (targetPasses row m)).length ∧
    ∀ rec ∈ recs, ∃ target col value ti,
      (target, col) ∈ m.column_mappings.targets ∧
      lookupKey row col = some value ∧ value ≠ "" ∧
      lookupKey m.targets target = some ti ∧
      lookupKey rec "pcr_target_avg_conc" = some (Value.str value) := by
  obtain ⟨sid, tempRaw, flowRaw, siteRaw', hsid, htemp, hflow, hsr', hrest⟩ :=
    processRow_inv hrun
  rw [hsr] at hsr'
  cases hsr'
  rcases hrest with ⟨hnone, -⟩ | ⟨site', re, hsite', hre, hpt⟩
  · rw [hsite] at hnone
    simp at hnone
  · constructor
    · exact processTargets_length _ _ hpt
    · intro rec hmem
      obtain ⟨tg, c, v, ti, cv, d, t, trd, hm, hc, hv, hti, -, -, -, -, heq⟩ :=
        processTargets_mem _ _ hpt rec hmem
      refine ⟨tg, c, v, ti, hm, hc, hv, hti, ?_⟩
      rw [heq]
      rfl

/-- Witness for C2 at the concrete example row: three of the four
declared targets pass (the fourth has an empty value) and exactly three
records are emitted. -/
theorem nwss_target_fan_out_witness :
    ((processRow demoRow demoMappings).getD []).length =
      (demoMappings.column_mappings.targets.filter
        (targetPasses demoRow demoMappings)).length ∧
    ((processRow demoRow demoMappings).getD []).length = 3 := by
  have h := nwss_target_fan_out demoRow demoMappings
    ((processRow demoRow demoMappings).getD []) "City Name" demoSite rfl rfl rfl
  exact ⟨h.1, by decide⟩

/-- C3 counterexample: the fixed output schema has 47 fields, not 44, and
the emitted records of a concrete run leave the schema field
`num_no_target_control` unassigned. -/
theorem nwss_44_fields_refuted :
    NWSS_FIELDS.length = 47 ∧
    "num_no_target_control" ∈ NWSS_FIELDS ∧
    processRow demoRow demoMappings ≠ none ∧
    (processRow demoRow demoMappings).getD [] ≠ [] ∧
    ∀ rec ∈ (processRow demoRow demoMappings).getD [],
      "num_no_target_control" ∉ rec.map Prod.fst := by decide

/-- C3 amended: the schema has 47 fields; every emitted record assigns a
value to exactly the 46 schema fields other than `num_no_target_control`,
which is never assigned. -/
theorem nwss_record_assigns_46_fields
    (row : Row) (m : NwssMappings) (recs : List Record) (rec : Record)
    (hrun : processRow row m = some recs) (hmem : rec ∈ recs) :
    rec.map Prod.fst = nwssRecordFields ∧
    (∀ f ∈ NWSS_FIELDS, f ≠ "num_no_target_control" → f ∈ rec.map Prod.fst) ∧
    "num_no_target_control" ∉ rec.map Prod.fst := by
  obtain ⟨sid, tempRaw, flowRaw, siteRaw, hsid, htemp, hflow, hsr, hrest⟩ :=
    processRow_inv hrun
  rcases hrest with ⟨-, hnil⟩ | ⟨site, re, hsite, hre, hpt⟩
  · subst hnil
    exact absurd hmem (List.not_mem_nil rec)
  · obtain ⟨tg, c, v, ti, cv, d, t, trd, -, -, -, -, -, -, -, -, heq⟩ :=
      processTargets_mem _ _ hpt rec hmem
    have hk : rec.map Prod.fst = nwssRecordFields := by rw [heq]; rfl
    refine ⟨hk, ?_, ?_⟩ <;> rw [hk] <;> decide

/-- Witness for C3's amended statement at the concrete example row. -/
theorem nwss_record_assigns_46_fields_witness :
    (processRow demoRow demoMappings).getD [] ≠ [] ∧
    ∀ rec ∈ (processRow demoRow demoMappings).getD [],
      rec.map Prod.fst = nwssRecordFields := by
  refine ⟨by decide, ?_⟩
  intro rec hmem
  exact (nwss_record_assigns_46_fields demoRow demoMappings
    ((processRow demoRow demoMappings).getD []) rec rfl hmem).1

/-- C4 counterexample: on a timestamp with three whitespace-separated
tokens, the code records the second token as the collect time, while a
split at the first whitespace boundary into exactly two tokens would
produce the whole remainder. -/
theorem collect_time_not_first_boundary :
    firstBoundaryTime "8/8/2023 7:00 AM" = "7:00 AM" ∧
    processRow demoRowAm demoMappings ≠ none ∧
    (processRow demoRowAm demoMappings).getD [] ≠ [] ∧
    (∀ rec ∈ (processRow demoRowAm demoMappings).getD [],
      lookupKey rec "sample_collect_time" = some (Value.str "7:00")) ∧
    ("7:00" : String) ≠ "7:00 AM" := by decide

/-- C4 amended: for every emitted record, the timestamp value is split on
runs of whitespace into a token list; `sample_collect_date` is the first
token and `sample_collect_time` is the second token (tokens after the
second are discarded, so for values with more than two tokens the time is
not the remainder after the first whitespace boundary). -/
theorem collect_date_time_whitespace_tokens
    (row : Row) (m : NwssMappings) (recs : List Record) (rec : Record)
    (hrun : processRow row m = some recs) (hmem : rec ∈ recs) :
    ∃ cv date time,
      lookupKey row m.column_mappings.sample_collect_date = some cv ∧
      (pySplitWs cv).get? 0 = some date ∧
      (pySplitWs cv).get? 1 = some time ∧
      lookupKey rec "sample_collect_date" = some (Value.str date) ∧
      lookupKey rec "sample_collect_time" = some (Value.str time) := by
  obtain ⟨sid, tempRaw, flowRaw, siteRaw, hsid, htemp, hflow, hsr, hrest⟩ :=
    processRow_inv hrun
  rcases hrest with ⟨-, hnil⟩ | ⟨site, re, hsite, hre, hpt⟩
  · subst hnil
    exact absurd hmem (List.not_mem_nil rec)
  · obtain ⟨tg, c, v, ti, cv, d, t, trd, -, -, -, -, hcv, hd, htm, -, heq⟩ :=
      processTargets_mem _ _ hpt rec hmem
    exact ⟨cv, d, t, hcv, hd, htm, by rw [heq]; rfl, by rw [heq]; rfl⟩

/-- Witness for C4's amended statement at the concrete example row. -/
theorem collect_date_time_whitespace_tokens_witness :
    (processRow demoRow demoMappings).getD [] ≠ [] ∧
    ∀ rec ∈ (processRow demoRow demoMappings).getD [],
      ∃ cv date time,
        lookupKey demoRow demoMappings.column_mappings.sample_collect_date = some cv ∧
        (pySplitWs cv).get? 0 = some date ∧
        (pySplitWs cv).get? 1 = some time ∧
        lookupKey rec "sample_collect_date" = some (Value.str date) ∧
        lookupKey rec "sample_collect_time" = some (Value.str time) := by
  refine ⟨by decide, ?_⟩
  intro rec hmem
  exact collect_date_time_whitespace_tokens demoRow demoMappings
    ((processRow demoRow demoMappings).getD []) rec rfl hmem

/-- C5: when the temperature value, after removing at most one dot, is
all digits, every emitted record carries `(F - 32) * 5 / 9` formatted to
two decimal places; otherwise every emitted record carries the empty
string and the row is still processed, emitting one record per passing
target. -/
theorem temperature_fahrenheit_to_celsius
    (row : Row) (m : NwssMappings) (recs : List Record) (tempRaw : String)
    (hrun : processRow row m = some recs)
    (htemp : lookupKey row m.column_mappings.collection_water_temp = some tempRaw) :
    (pyIsDigit (removeFirstDot tempRaw) = true →
      ∀ rec ∈ recs, lookupKey rec "collection_water_temp" =
        some (Value.str (format2f ((parseDecimal tempRaw - 32) * 5 / 9)))) ∧
    (pyIsDigit (removeFirstDot tempRaw) = false →
      (∀ rec ∈ recs, lookupKey rec "collection_water_temp" = some (Value.str "")) ∧
      (∀ siteRaw site, lookupKey row m.column_mappings.site = some siteRaw →
        lookupKey m.sites (normalizeSite siteRaw) = some site →
        recs.length =
          (m.column_mappings.targets.filter (targetPasses row m)).length)) := by
  obtain ⟨sid, tempRaw', flowRaw, siteRaw, hsid, htemp', hflow, hsr, hrest⟩ :=
    processRow_inv hrun
  rw [htemp] at htemp'
  cases htemp'
  have hval : ∀ rec ∈ recs,
      lookupKey rec "collection_water_temp" = some (tempValue tempRaw) := by
    rcases hrest with ⟨-, hnil⟩ | ⟨site, re, hsite, hre, hpt⟩
    · subst hnil
      intro rec hmem
      exact absurd hmem (List.not_mem_nil rec)
    · intro rec hmem
      obtain ⟨tg, c, v, ti, cv, d, t, trd, -, -, -, -, -, -, -, -, heq⟩ :=
        processTargets_mem _ _ hpt rec hmem
      rw [heq]
      rfl
  constructor
  · intro hdig rec hmem
    have hlk := hval rec hmem
    rwa [tempValue, if_pos hdig] at hlk
  · intro hdig
    constructor
    · intro rec hmem
      have hlk := hval rec hmem
      rwa [tempValue, if_neg (by simp [hdig])] at hlk
    · intro siteRaw' site' hsr' hsite'
      rw [hsr] at hsr'
      cases hsr'
      rcases hrest with ⟨hnone, -⟩ | ⟨site, re, hsite, hre, hpt⟩
      · rw [hsite'] at hnone
        simp at hnone
      · exact processTargets_length _ _ hpt

/-- Witness for C5 at the concrete example row: 98.6 degrees Fahrenheit
becomes the string 37.00. -/
theorem temperature_fahrenheit_to_celsius_witness :
    pyIsDigit (removeFirstDot "98.6") = true ∧
    format2f ((parseDecimal "98.6" - 32) * 5 / 9) = "37.00" ∧
    ∀ rec ∈ (processRow demoRow demoMappings).getD [],
      lookupKey rec "collection_water_temp" = some (Value.str "37.00") := by
  have h := temperature_fahrenheit_to_celsius demoRow demoMappings
    ((processRow demoRow demoMappings).getD []) "98.6" rfl rfl
  refine ⟨rfl, of_decide_eq_true (by with_unfolding_all rfl), ?_⟩
  intro rec hmem
  have hlk := h.1 rfl rec hmem
  rwa [show format2f ((parseDecimal "98.6" - 32) * 5 / 9) = "37.00" from
    of_decide_eq_true (by with_unfolding_all rfl)] at hlk

/-- C7: the site value is normalized (lowercased, spaces to underscores)
before the site-table lookup, and a row whose normalized site is absent
from the table yields zero output records — the transformer produces
nothing else for it. -/
theorem unknown_site_drops_row
    (row : Row) (m : NwssMappings) (recs : List Record) (siteRaw : String)
    (hrun : processRow row m = some recs)
    (hsr : lookupKey row m.column_mappings.site = some siteRaw)
    (hmiss : lookupKey m.sites (normalizeSite siteRaw) = none) :
    recs = [] := by
  obtain ⟨sid, tempRaw, flowRaw, siteRaw', hsid, htemp, hflow, hsr', hrest⟩ :=
    processRow_inv hrun
  rw [hsr] at hsr'
  cases hsr'
  rcases hrest with ⟨-, hnil⟩ | ⟨site, re, hsite, -, -⟩
  · exact hnil
  · rw [hmiss] at hsite
    simp at hsite

/-- Witness for C7 at a concrete row whose site is not in the table. -/
theorem unknown_site_drops_row_witness :
    (processRow demoRowBadSite demoMappings).getD [] = [] ∧
    processRow demoRowBadSite demoMappings ≠ none :=
  ⟨unknown_site_drops_row demoRowBadSite demoMappings
    ((processRow demoRowBadSite demoMappings).getD []) "Closed Plant" rfl rfl rfl,
   by decide⟩

/-- C8 counterexample: on the value with a percent sign in the middle,
the code removes every percent sign, not only a trailing one. -/
theorem rec_eff_trailing_only_refuted :
    stripTrailingPercent "4%3%" = "4%3" ∧
    processRow demoRowPct demoMappings ≠ none ∧
    (processRow demoRowPct demoMappings).getD [] ≠ [] ∧
    (∀ rec ∈ (processRow demoRowPct demoMappings).getD [],
      lookupKey rec "rec_eff_percent" = some (Value.str "43")) ∧
    ("43" : String) ≠ "4%3" := by decide

/-- C8 amended: the `rec_eff_percent` field equals the configured
column's raw value with every percent sign removed, wherever it occurs,
and no numeric validation is applied. -/
theorem rec_eff_percent_removes_all
    (row : Row) (m : NwssMappings) (recs : List Record) (rec : Record) (v : String)
    (hrun : processRow row m = some recs) (hmem : rec ∈ recs)
    (hv : lookupKey row m.column_mappings.rec_eff_percent = some v) :
    lookupKey rec "rec_eff_percent" = some (Value.str (pyReplace v "%" "")) := by
  obtain ⟨sid, tempRaw, flowRaw, siteRaw, hsid, htemp, hflow, hsr, hrest⟩ :=
    processRow_inv hrun
  rcases hrest with ⟨-, hnil⟩ | ⟨site, re, hsite, hre, hpt⟩
  · subst hnil
    exact absurd hmem (List.not_mem_nil rec)
  · rw [hv] at hre
    cases hre
    obtain ⟨tg, c, v', ti, cv, d, t, trd, -, -, -, -, -, -, -, -, heq⟩ :=
      processTargets_mem _ _ hpt rec hmem
    rw [heq]
    rfl

/-- Witness for C8's amended statement at the concrete example row. -/
theorem rec_eff_percent_removes_all_witness :
    pyReplace "36.70%" "%" "" = "36.70" ∧
    (processRow demoRow demoMappings).getD [] ≠ [] ∧
    ∀ rec ∈ (processRow demoRow demoMappings).getD [],
      lookupKey rec "rec_eff_percent" = some (Value.str (pyReplace "36.70%" "%" "")) := by
  refine ⟨by decide, by decide, ?_⟩
  intro rec hmem
  exact rec_eff_percent_removes_all demoRow demoMappings
    ((processRow demoRow demoMappings).getD []) rec "36.70%" rfl hmem rfl

theorem gisaid_formatter_inv {metadata : Row} {fasta sequencer : String}
    {constants : GisaidConstants} {record : List (String × String)}
    (h : gisaid_formatter metadata fasta sequencer constants = some record) :
    ∃ sid cdate,
      lookupKey metadata "sample_id" = some sid ∧
      lookupKey metadata "collection_date" = some cdate ∧
      record.map Prod.fst = GISAID_FIELDS ∧
      lookupKey record "covv_virus_name" =
        some ("hCoV-19/" ++ constants.COUNTRY ++ "/" ++ constants.SUBMISSION_ID_PFX ++
          sid ++ "/" ++ String.mk ((splitOnChar '-' cdate.data).headD [])) := by
  unfold gisaid_formatter at h
  cases h1 : lookupKey metadata "sample_id" with
  | none => rw [h1] at h; simp at h
  | some sid =>
    rw [h1] at h
    dsimp only at h
    cases h2 : lookupKey metadata "collection_date" with
    | none => rw [h2] at h; simp at h
    | some cdate =>
      rw [h2] at h
      dsimp only at h
      cases h3 : lookupKey metadata "sex" with
      | none => rw [h3] at h; simp at h
      | some sex =>
        rw [h3] at h
        dsimp only at h
        cases h4 : lookupKey metadata "age" with
        | none => rw [h4] at h; simp at h
        | some ageS =>
          rw [h4] at h
          dsimp only at h
          cases h5 : pyInt ageS with
          | none => rw [h5] at h; simp at h
          | some age =>
            rw [h5] at h
            dsimp only at h
            cases h6 : constants.AUTHORS.getLast? with
            | none => rw [h6] at h; simp at h
            | some lastAuthor =>
              rw [h6] at h
              dsimp only at h
              cases h7 : lookupKey SEQUENCER sequencer with
              | none => rw [h7] at h; simp at h
              | some seqTech =>
                rw [h7] at h
                dsimp only at h
                simp only [Option.some.injEq] at h
                subst h
                exact ⟨sid, cdate, rfl, rfl, rfl, rfl⟩

theorem processSample_accepted_inv {results : List (String × Row)}
    {assemblies : List (String × String)} {minCov : ℚ} {maxNs : ℤ}
    {samplePfx fastaName sequencer : String} {constants : GisaidConstants}
    {sample : Row} {key : String} {record : List (String × String)} {seq : String}
    (h : processSample results assemblies minCov maxNs samplePfx fastaName sequencer
      constants sample = some (Outcome.accepted key record seq)) :
    lookupKey sample "sample_id" = some key ∧
    gisaid_formatter sample fastaName sequencer constants = some record ∧
    lookupKey assemblies (samplePfx ++ key) = some seq := by
  unfold processSample at h
  cases h1 : lookupKey sample "sample_id" with
  | none => rw [h1] at h; simp at h
  | some sid0 =>
    rw [h1] at h
    dsimp only at h
    cases h2 : lookupKey results (samplePfx ++ sid0) with
    | none => rw [h2] at h; simp at h
    | some res =>
      rw [h2] at h
      dsimp only at h
      cases h3 : lookupKey assemblies (samplePfx ++ sid0) with
      | none => rw [h3] at h; simp at h
      | some seq' =>
        rw [h3] at h
        dsimp only at h
        cases h4 : lookupKey res "percent_coverage" with
        | none => rw [h4] at h; simp at h
        | some covS =>
          rw [h4] at h
          dsimp only at h
          cases h5 : pyFloat covS with
          | none => rw [h5] at h; simp at h
          | some cov =>
            rw [h5] at h
            dsimp only at h
            cases h6 : lookupKey res "total_ns" with
            | none => rw [h6] at h; simp at h
            | some nsS =>
              rw [h6] at h
              dsimp only at h
              cases h7 : pyInt nsS with
              | none => rw [h7] at h; simp at h
              | some ns =>
                rw [h7] at h
                dsimp only at h
                by_cases h8 : (qcReasons (samplePfx ++ sid0) covS nsS cov ns
                    minCov maxNs).isEmpty = true
                · rw [if_pos h8] at h
                  cases h9 : gisaid_formatter sample fastaName sequencer constants with
                  | none => rw [h9] at h; simp at h
                  | some record' =>
                    rw [h9] at h
                    dsimp only at h
                    simp only [Option.some.injEq, Outcome.accepted.injEq] at h
                    obtain ⟨hk, hr, hs⟩ := h
                    subst hk
                    subst hr
                    subst hs
                    exact ⟨rfl, rfl, h3⟩
                · rw [if_neg h8] at h
                  simp at h

/-- C1: a genomic sample present in both the results and assembly
mappings, whose metrics parse as numbers, is accepted (formatted and
stored) exactly when its percent coverage is at least the minimum and its
N count is at most the maximum; otherwise it is excluded under its
prefixed id with one reason message per violated check — both checks
always run, never short-circuited — joined with a semicolon. -/
theorem qc_filter_accept_iff
    (results : List (String × Row)) (assemblies : List (String × String))
    (minCov : ℚ) (maxNs : ℤ) (samplePfx fastaName sequencer : String)
    (constants : GisaidConstants) (sample : Row) (out : Outcome)
    (sid0 : String) (res : Row) (seq covS nsS : String) (cov : ℚ) (ns : ℤ)
    (hsid : lookupKey sample "sample_id" = some sid0)
    (hres : lookupKey results (samplePfx ++ sid0) = some res)
    (hasm : lookupKey assemblies (samplePfx ++ sid0) = some seq)
    (hcovS : lookupKey res "percent_coverage" = some covS)
    (hcov : pyFloat covS = some cov)
    (hnsS : lookupKey res "total_ns" = some nsS)
    (hns : pyInt nsS = some ns)
    (hrun : processSample results assemblies minCov maxNs samplePfx fastaName
      sequencer constants sample = some out) :
    ((∃ record, out = Outcome.accepted sid0 record seq) ↔ minCov ≤ cov ∧ ns ≤ maxNs) ∧
    (¬(minCov ≤ cov ∧ ns ≤ maxNs) →
      out = Outcome.excludedRow (samplePfx ++ sid0) (joinSep ";"
        ((if cov < minCov then
            [lowCoverageMessage (samplePfx ++ sid0) covS minCov] else []) ++
         (if maxNs < ns then
            [tooManyNsMessage (samplePfx ++ sid0) nsS maxNs] else [])))) := by
  unfold processSample at hrun
  rw [hsid] at hrun
  dsimp only at hrun
  rw [hres] at hrun
  dsimp only at hrun
  rw [hasm] at hrun
  dsimp only at hrun
  rw [hcovS] at hrun
  dsimp only at hrun
  rw [hcov] at hrun
  dsimp only at hrun
  rw [hnsS] at hrun
  dsimp only at hrun
  rw [hns] at hrun
  dsimp only at hrun
  by_cases hacc : minCov ≤ cov ∧ ns ≤ maxNs
  · have hempty : (qcReasons (samplePfx ++ sid0) covS nsS cov ns minCov
        maxNs).isEmpty = true := by
      unfold qcReasons
      rw [if_neg (not_lt.mpr hacc.1), if_neg (not_lt.mpr hacc.2)]
      rfl
    rw [if_pos hempty] at hrun
    cases hf : gisaid_formatter sample fastaName sequencer constants with
    | none => rw [hf] at hrun; simp at hrun
    | some record =>
      rw [hf] at hrun
      dsimp only at hrun
      simp only [Option.some.injEq] at hrun
      subst hrun
      refine ⟨⟨fun _ => hacc, fun _ => ⟨record, rfl⟩⟩, fun hn => absurd hacc hn⟩
  · have hne : ¬ (qcReasons (samplePfx ++ sid0) covS nsS cov ns minCov
        maxNs).isEmpty = true := by
      unfold qcReasons
      rcases not_and_or.mp hacc with hlt | hlt
      · rw [if_pos (not_le.mp hlt)]
        simp
      · rw [if_pos (not_le.mp hlt)]
        simp
    rw [if_neg hne] at hrun
    simp only [Option.some.injEq] at hrun
    subst hrun
    constructor
    · constructor
      · rintro ⟨record, habs⟩
        exact Outcome.noConfusion habs
      · intro hc
        exact absurd hc hacc
    · intro _
      rfl

/-- Witness for C1 at a concrete accepted sample. -/
theorem qc_filter_accept_iff_witness :
    ∃ record,
      (processSample demoResults demoAssemblies 70 7500 "" "gisaid-batch.fasta"
        "miseq" demoConstants demoMeta).getD Outcome.skipped =
      Outcome.accepted "S1" record "ACGT" := by
  have hrun : processSample demoResults demoAssemblies 70 7500 "" "gisaid-batch.fasta"
      "miseq" demoConstants demoMeta =
      some ((processSample demoResults demoAssemblies 70 7500 "" "gisaid-batch.fasta"
        "miseq" demoConstants demoMeta).getD Outcome.skipped) :=
    of_decide_eq_true (by with_unfolding_all rfl)
  have h := qc_filter_accept_iff demoResults demoAssemblies 70 7500 ""
    "gisaid-batch.fasta" "miseq" demoConstants demoMeta
    ((processSample demoResults demoAssemblies 70 7500 "" "gisaid-batch.fasta"
      "miseq" demoConstants demoMeta).getD Outcome.skipped)
    "S1" demoResRow "ACGT" "95.5" "120" (parseDecimal "95.5") 120
    rfl rfl rfl rfl rfl rfl rfl hrun
  exact h.1.mpr ⟨of_decide_eq_true (by with_unfolding_all rfl), by decide⟩

theorem lookupKey_dictInsert_isSome {α : Type} (d : List (String × α))
    (k k' : String) (v : α) :
    (lookupKey (dictInsert d k v) k').isSome = true ↔
      k = k' ∨ (lookupKey d k').isSome = true := by
  induction d with
  | nil =>
    by_cases h : k = k' <;> simp [dictInsert, lookupKey, h]
  | cons p rest ih =>
    obtain ⟨k0, v0⟩ := p
    by_cases h0 : k0 = k
    · subst h0
      by_cases h1 : k0 = k' <;> simp [dictInsert, lookupKey, h1]
    · by_cases h1 : k0 = k'
      · subst h1
        simp [dictInsert, lookupKey, h0, ih]
      · simp [dictInsert, lookupKey, h0, h1, ih]

theorem parseAssembliesAux_isSome (extension k : String) :
    ∀ (files : List (String × List String)) (seqs : List (String × String)),
      (lookupKey (parseAssembliesAux extension files seqs) k).isSome = true ↔
        ((lookupKey seqs k).isSome = true ∨
         ∃ p ∈ files, endsWithChars p.1 ("." ++ extension) = true ∧
           p.2.length = 1 ∧ pyReplace p.1 ("." ++ extension) "" = k) := by
  intro files
  induction files with
  | nil =>
    intro seqs
    simp [parseAssembliesAux]
  | cons p rest ih =>
    intro seqs
    obtain ⟨name, fasta⟩ := p
    by_cases he : endsWithChars name ("." ++ extension) = true
    · by_cases hl : fasta.length = 1
      · have hstep : parseAssembliesAux extension ((name, fasta) :: rest) seqs =
            parseAssembliesAux extension rest
              (dictInsert seqs (pyReplace name ("." ++ extension) "")
                (fasta.headD "")) := by
          simp [parseAssembliesAux, he, hl]
        rw [hstep, ih, lookupKey_dictInsert_isSome]
        simp only [List.exists_mem_cons_iff, he, hl]
        tauto
      · have hstep : parseAssembliesAux extension ((name, fasta) :: rest) seqs =
            parseAssembliesAux extension rest seqs := by
          simp [parseAssembliesAux, he, hl]
        rw [hstep, ih]
        simp only [List.exists_mem_cons_iff, hl]
        tauto
    · have hstep : parseAssembliesAux extension ((name, fasta) :: rest) seqs =
          parseAssembliesAux extension rest seqs := by
        simp [parseAssembliesAux, he]
      rw [hstep, ih]
      simp only [List.exists_mem_cons_iff, he]
      tauto

/-- C6: a metadata sample whose (optionally prefixed) id is missing from
the results mapping or from the assembly mapping is skipped: the loop
body yields the skipped outcome, which leaves both the accepted data and
the exclusion list unchanged.  The assembly mapping built from a
directory scan contains exactly the stripped names of matching files
holding a single sequence, so a multi-sequence or empty file behaves
identically to a missing assembly. -/
theorem missing_sample_silently_dropped
    (results : List (String × Row)) (assemblies : List (String × String))
    (minCov : ℚ) (maxNs : ℤ) (samplePfx fastaName sequencer : String)
    (constants : GisaidConstants) (sample : Row) (sid0 : String)
    (files : List (String × List String)) (extension k : String)
    (hsid : lookupKey sample "sample_id" = some sid0)
    (hmiss : lookupKey results (samplePfx ++ sid0) = none ∨
      lookupKey assemblies (samplePfx ++ sid0) = none) :
    processSample results assemblies minCov maxNs samplePfx fastaName sequencer
      constants sample = some Outcome.skipped ∧
    (∀ acc, batchStep acc Outcome.skipped = acc) ∧
    ((lookupKey (parse_consensus_assemblies files extension) k).isSome = true ↔
      ∃ p ∈ files, endsWithChars p.1 ("." ++ extension) = true ∧
        p.2.length = 1 ∧ pyReplace p.1 ("." ++ extension) "" = k) := by
  refine ⟨?_, fun acc => rfl, ?_⟩
  · unfold processSample
    rw [hsid]
    dsimp only
    rcases hmiss with hm | hm
    · rw [hm]
    · cases hr : lookupKey results (samplePfx ++ sid0) with
      | none => rfl
      | some res =>
        dsimp only
        rw [hm]
  · rw [show parse_consensus_assemblies files extension =
        parseAssembliesAux extension files [] from rfl]
    rw [parseAssembliesAux_isSome]
    simp [lookupKey]

/-- Witness for C6 at the concrete directory scan: sample S2 is present
in the results but its assembly file holds two sequences, so it is
absent from the assembly mapping and the sample is skipped. -/
theorem missing_sample_silently_dropped_witness :
    processSample demoResults (parse_consensus_assemblies demoFiles "consensus.fa")
      70 7500 "" "gisaid-batch.fasta" "miseq" demoConstants demoMetaS2 =
      some Outcome.skipped ∧
    ¬ (lookupKey (parse_consensus_assemblies demoFiles "consensus.fa")
        "S2").isSome = true := by
  have h := missing_sample_silently_dropped demoResults
    (parse_consensus_assemblies demoFiles "consensus.fa") 70 7500 ""
    "gisaid-batch.fasta" "miseq" demoConstants demoMetaS2 "S2" demoFiles
    "consensus.fa" "S2" rfl (Or.inr rfl)
  refine ⟨h.1, ?_⟩
  rw [h.2.2]
  decide

/-- C9 counterexample: the fixed field list has 31 entries, not 30, and a
concrete accepted sample's formatted record has 31 fields. -/
theorem gisaid_30_fields_refuted :
    GISAID_FIELDS.length = 31 ∧
    GISAID_FIELDS.length ≠ 30 ∧
    (outcomeRecord (processSample demoResults demoAssemblies 70 7500 ""
      "gisaid-batch.fasta" "miseq" demoConstants demoMeta)).isSome = true ∧
    ((outcomeRecord (processSample demoResults demoAssemblies 70 7500 ""
      "gisaid-batch.fasta" "miseq" demoConstants demoMeta)).getD []).length = 31 :=
  of_decide_eq_true (by with_unfolding_all rfl)

/-- C9 amended: for every accepted genomic sample, the record built by
`gisaid_formatter` is an ordered mapping of exactly 31 fields whose keys,
in order, are the fixed external-schema field list. -/
theorem gisaid_record_31_ordered_fields
    (results : List (String × Row)) (assemblies : List (String × String))
    (minCov : ℚ) (maxNs : ℤ) (samplePfx fastaName sequencer : String)
    (constants : GisaidConstants) (sample : Row) (key : String)
    (record : List (String × String)) (seq : String)
    (hrun : processSample results assemblies minCov maxNs samplePfx fastaName
      sequencer constants sample = some (Outcome.accepted key record seq)) :
    record.map Prod.fst = GISAID_FIELDS ∧ record.length = 31 := by
  obtain ⟨-, hf, -⟩ := processSample_accepted_inv hrun
  obtain ⟨sid, cdate, -, -, hkeys, -⟩ := gisaid_formatter_inv hf
  refine ⟨hkeys, ?_⟩
  have h1 : record.length = GISAID_FIELDS.length := by
    rw [← hkeys, List.length_map]
  rw [h1]
  decide

/-- Witness for C9's amended statement at a concrete accepted sample. -/
theorem gisaid_record_31_ordered_fields_witness :
    ((outcomeRecord (processSample demoResults demoAssemblies 70 7500 ""
      "gisaid-batch.fasta" "miseq" demoConstants demoMeta)).getD []).map Prod.fst =
      GISAID_FIELDS := by
  have hrun : processSample demoResults demoAssemblies 70 7500 "" "gisaid-batch.fasta"
      "miseq" demoConstants demoMeta = some (Outcome.accepted "S1"
        ((outcomeRecord (processSample demoResults demoAssemblies 70 7500 ""
          "gisaid-batch.fasta" "miseq" demoConstants demoMeta)).getD []) "ACGT") :=
    of_decide_eq_true (by with_unfolding_all rfl)
  exact (gisaid_record_31_ordered_fields demoResults demoAssemblies 70 7500 ""
    "gisaid-batch.fasta" "miseq" demoConstants demoMeta "S1"
    ((outcomeRecord (processSample demoResults demoAssemblies 70 7500 ""
      "gisaid-batch.fasta" "miseq" demoConstants demoMeta)).getD []) "ACGT" hrun).1

/-- C10: the configured sample prefix affects only the lookups, threshold
checks and the exclusion id: a sample accepted under two different
prefixes in otherwise identical runs is stored under the same key — its
unprefixed metadata id — with the identical formatted record, whose
`covv_virus_name` is built from the unprefixed id. -/
theorem sample_pfx_invariant_records
    (results : List (String × Row)) (assemblies : List (String × String))
    (minCov : ℚ) (maxNs : ℤ) (pfx1 pfx2 fastaName sequencer : String)
    (constants : GisaidConstants) (sample : Row)
    (k1 : String) (r1 : List (String × String)) (s1 : String)
    (k2 : String) (r2 : List (String × String)) (s2 : String)
    (h1 : processSample results assemblies minCov maxNs pfx1 fastaName sequencer
      constants sample = some (Outcome.accepted k1 r1 s1))
    (h2 : processSample results assemblies minCov maxNs pfx2 fastaName sequencer
      constants sample = some (Outcome.accepted k2 r2 s2)) :
    k1 = k2 ∧ r1 = r2 ∧ lookupKey sample "sample_id" = some k1 ∧
    ∃ cdate, lookupKey sample "collection_date" = some cdate ∧
      lookupKey r1 "covv_virus_name" = some ("hCoV-19/" ++ constants.COUNTRY ++
        "/" ++ constants.SUBMISSION_ID_PFX ++ k1 ++ "/" ++
        String.mk ((splitOnChar '-' cdate.data).headD [])) := by
  obtain ⟨hk1, hf1, -⟩ := processSample_accepted_inv h1
  obtain ⟨hk2, hf2, -⟩ := processSample_accepted_inv h2
  have hkk : k1 = k2 := by
    rw [hk1] at hk2
    exact Option.some.inj hk2
  have hrr : r1 = r2 := by
    rw [hf1] at hf2
    exact Option.some.inj hf2
  obtain ⟨sid, cdate, hsid', hcd, -, hvn⟩ := gisaid_formatter_inv hf1
  rw [hk1] at hsid'
  have hsk : sid = k1 := (Option.some.inj hsid').symm
  subst hsk
  exact ⟨hkk, hrr, hk1, cdate, hcd, hvn⟩

/-- Witness for C10: the same sample accepted under the empty prefix and
under a prefix resolving to different result and assembly entries yields
the identical formatted record. -/
theorem sample_pfx_invariant_records_witness :
    (outcomeRecord (processSample demoResultsP demoAssembliesP 70 7500 ""
      "gisaid-batch.fasta" "miseq" demoConstants demoMeta)).getD [] =
    (outcomeRecord (processSample demoResultsP demoAssembliesP 70 7500 "WA-"
      "gisaid-batch.fasta" "miseq" demoConstants demoMeta)).getD [] ∧
    lookupKey demoMeta "sample_id" = some "S1" := by
  have h1 : processSample demoResultsP demoAssembliesP 70 7500 "" "gisaid-batch.fasta"
      "miseq" demoConstants demoMeta = some (Outcome.accepted "S1"
        ((outcomeRecord (processSample demoResultsP demoAssembliesP 70 7500 ""
          "gisaid-batch.fasta" "miseq" demoConstants demoMeta)).getD []) "ACGT") :=
    of_decide_eq_true (by with_unfolding_all rfl)
  have h2 : processSample demoResultsP demoAssembliesP 70 7500 "WA-"
      "gisaid-batch.fasta" "miseq" demoConstants demoMeta = some (Outcome.accepted "S1"
        ((outcomeRecord (processSample demoResultsP demoAssembliesP 70 7500 "WA-"
          "gisaid-batch.fasta" "miseq" demoConstants demoMeta)).getD []) "ACGG") :=
    of_decide_eq_true (by with_unfolding_all rfl)
  have h := sample_pfx_invariant_records demoResultsP demoAssembliesP 70 7500 ""
    "WA-" "gisaid-batch.fasta" "miseq" demoConstants demoMeta "S1"
    ((outcomeRecord (processSample demoResultsP demoAssembliesP 70 7500 ""
      "gisaid-batch.fasta" "miseq" demoConstants demoMeta)).getD []) "ACGT" "S1"
    ((outcomeRecord (processSample demoResultsP demoAssembliesP 70 7500 "WA-"
      "gisaid-batch.fasta" "miseq" demoConstants demoMeta)).getD []) "ACGG" h1 h2
  exact ⟨h.2.1, h.2.2.1⟩

end Steamboat
